import Mathlib

/-!
# BodyWise — verification of the guided-capture subsystem

Shallow embedding of the pose-analysis client (`src/ai/flows/ai-pose-guidance.ts`)
and of the guided capture controller (`src/components/capture/CaptureWorkflow.tsx`,
the revision with the `CapturePhase` state machine, the TFJS advisory detector and
the `PROFILE_INCOMPLETE` / `READY_TO_START` phases), together with theorems about
the retry policy, the controller state machine, and its invariants.
-/

namespace BodyWise

/-! ## Data model of the analysis client (`ai-pose-guidance.ts`)

`LandmarkPointSchema`: `{name, x, y}` with normalized coordinates.  The
coordinates are opaque payload for every property considered here; they are
embedded as rationals. -/

structure LandmarkPoint where
  name : String
  x : Rat
  y : Rat
deriving DecidableEq

/-- `AIPoseGuidanceInputSchema`: `{photoDataUri, currentPose, desiredPose}`. -/
structure AIPoseGuidanceInput where
  photoDataUri : String
  currentPose : String
  desiredPose : String
deriving DecidableEq

/-- `AIPoseGuidanceOutputSchema`: `{feedback, isCorrectPose, detectedLandmarks?}`.
`detectedLandmarks` is optional in the wire schema (`z.array(...).optional()`),
hence an `Option` here. -/
structure AIPoseGuidanceOutput where
  feedback : String
  isCorrectPose : Bool
  detectedLandmarks : Option (List LandmarkPoint)
deriving DecidableEq

/-- A failure thrown by the underlying `prompt(input)` call: the code inspects
`error.name` and `error.status` and logs `error.message`. -/
structure ServiceError where
  name : String
  status : Nat
  message : String
deriving DecidableEq

/-- The transient check of `aiPoseGuidanceFlow` (line 105 of the source):
`error.name === 'GoogleGenerativeAIError' && error.status === 503`. -/
def isTransient503 (e : ServiceError) : Bool :=
  e.name == "GoogleGenerativeAIError" && e.status == 503

/-- Lines 97-100 of the source: after a successful `prompt` call,
`if (output && output.detectedLandmarks === undefined) output.detectedLandmarks = [];`
so an absent landmark list is replaced by the empty list before returning. -/
def normalizeOutput (o : AIPoseGuidanceOutput) : AIPoseGuidanceOutput :=
  match o.detectedLandmarks with
  | none => { o with detectedLandmarks := some [] }
  | some _ => o

/-- How `aiPoseGuidanceFlow` can fail: either it re-throws the underlying error
unchanged (non-transient case, line 112), or, after exhausting the retries, it
throws a fresh `Error` whose message is built from the last underlying error
(line 118, `lastError?.message`); the embedding carries that last error
directly. -/
inductive FlowError where
  | rethrown (e : ServiceError)
  | exhausted (lastError : Option ServiceError)
deriving DecidableEq

/-- Observable result of one `aiPoseGuidanceFlow(input)` run: the returned value
or thrown error, the number of underlying `prompt` calls issued, and the
successive `setTimeout` sleeps (in milliseconds, the code sleeps
`(2 ** retryCount) * 1000` ms at line 108). -/
structure FlowResult where
  outcome : Except FlowError AIPoseGuidanceOutput
  calls : Nat
  delaysMs : List Nat

/-- The `while (retryCount < maxRetries)` loop of `aiPoseGuidanceFlow`
(lines 94-115).  The loop condition is expressed through the fuel
`maxRetries - retryCount`, which decreases exactly when `retryCount` is
incremented; `retryCount` itself is kept as a parameter because the slept
delay is `2 ** retryCount` seconds computed after the increment.  The
environment is a map from call index to the outcome of that underlying
`prompt` call. -/
def flowLoop (service : Nat → Except ServiceError AIPoseGuidanceOutput) :
    Nat → Nat → Nat → Option ServiceError → List Nat → FlowResult
  | 0, _, callIdx, lastError, delays =>
      { outcome := Except.error (FlowError.exhausted lastError)
        calls := callIdx
        delaysMs := delays }
  | fuel + 1, retryCount, callIdx, lastError, delays =>
      match service callIdx with
      | Except.ok output =>
          { outcome := Except.ok (normalizeOutput output)
            calls := callIdx + 1
            delaysMs := delays }
      | Except.error e =>
          if isTransient503 e then
            flowLoop service fuel (retryCount + 1) (callIdx + 1) (some e)
              (delays ++ [2 ^ (retryCount + 1) * 1000])
          else
            { outcome := Except.error (FlowError.rethrown e)
              calls := callIdx + 1
              delaysMs := delays }

/-- `const maxRetries = 3;` (line 90). -/
def maxRetries : Nat := 3

/-- `aiPoseGuidanceFlow`, started with `retryCount = 0`, no last error and no
sleeps performed. -/
def aiPoseGuidanceFlow (service : Nat → Except ServiceError AIPoseGuidanceOutput) :
    FlowResult :=
  flowLoop service maxRetries 0 0 none []

/-! Concrete inputs used as counterexample / witness material. -/

/-- A transient failure: the well-known 503 signal. -/
def err503 : ServiceError :=
  { name := "GoogleGenerativeAIError", status := 503, message := "Service Unavailable" }

/-- A non-transient failure (permanent rejection). -/
def err400 : ServiceError :=
  { name := "GoogleGenerativeAIError", status := 400, message := "Bad Request" }

/-- A successful service output that does include a landmark list. -/
def okOutput : AIPoseGuidanceOutput :=
  { feedback := "Pose looks good.", isCorrectPose := true, detectedLandmarks := some [] }

/-- A successful service output where the service omits `detectedLandmarks`. -/
def okOutputNoLandmarks : AIPoseGuidanceOutput :=
  { feedback := "Pose looks good.", isCorrectPose := true, detectedLandmarks := none }

/-- A service that fails transiently on the first two calls and succeeds on the
third. -/
def svcTwoTransientThenOk : Nat → Except ServiceError AIPoseGuidanceOutput :=
  fun n => if n < 2 then Except.error err503 else Except.ok okOutput

/-- A service that always fails transiently. -/
def svcAlwaysTransient : Nat → Except ServiceError AIPoseGuidanceOutput :=
  fun _ => Except.error err503

/-- A service that fails non-transiently on the first call. -/
def svcNonTransient : Nat → Except ServiceError AIPoseGuidanceOutput :=
  fun _ => Except.error err400

/-- A service that immediately succeeds but omits the landmark list. -/
def svcOkNoLandmarks : Nat → Except ServiceError AIPoseGuidanceOutput :=
  fun _ => Except.ok okOutputNoLandmarks

/-! ## Claims C1, C2, C3 — retry policy and landmark normalization -/

/-- Claim C1, counterexample to the claim as stated: with a service that fails
transiently exactly twice and then succeeds, the delays actually slept between
attempts are 2 seconds and 4 seconds (the code sleeps `2 ** retryCount` seconds
after incrementing `retryCount`), not the 1-second-then-2-second pattern the
claim names. -/
theorem aiPoseGuidance_first_backoff_is_two_seconds :
    (aiPoseGuidanceFlow svcTwoTransientThenOk).delaysMs = [2000, 4000] ∧
    (aiPoseGuidanceFlow svcTwoTransientThenOk).delaysMs ≠ [1000, 2000] := by
  constructor <;> decide

/-- Claim C1 (amended): if the first two underlying calls fail with the
transient 503 error kind and the third succeeds, `aiPoseGuidanceFlow` returns
the (normalized) successful output, issues exactly 3 underlying calls, and the
delays slept between consecutive attempts are 2s then 4s — strictly increasing,
following the 2^attempt-seconds scheme with attempt starting at 1; and if all
3 attempts fail transiently, it fails with a terminal `exhausted` error
carrying the last underlying cause, after exactly 3 calls. -/
theorem aiPoseGuidanceFlow_retry_backoff_policy
    (service : Nat → Except ServiceError AIPoseGuidanceOutput) :
    (∀ e0 e1 out,
        service 0 = Except.error e0 → isTransient503 e0 = true →
        service 1 = Except.error e1 → isTransient503 e1 = true →
        service 2 = Except.ok out →
        (aiPoseGuidanceFlow service).outcome = Except.ok (normalizeOutput out) ∧
        (aiPoseGuidanceFlow service).calls = 3 ∧
        (aiPoseGuidanceFlow service).delaysMs = [2 ^ 1 * 1000, 2 ^ 2 * 1000] ∧
        2 ^ 1 * 1000 < 2 ^ 2 * 1000) ∧
    (∀ e0 e1 e2,
        service 0 = Except.error e0 → isTransient503 e0 = true →
        service 1 = Except.error e1 → isTransient503 e1 = true →
        service 2 = Except.error e2 → isTransient503 e2 = true →
        (aiPoseGuidanceFlow service).outcome =
          Except.error (FlowError.exhausted (some e2)) ∧
        (aiPoseGuidanceFlow service).calls = 3) := by
  constructor
  · intro e0 e1 out h0 ht0 h1 ht1 h2
    simp [aiPoseGuidanceFlow, maxRetries, flowLoop, h0, ht0, h1, ht1, h2]
  · intro e0 e1 e2 h0 ht0 h1 ht1 h2 ht2
    simp [aiPoseGuidanceFlow, maxRetries, flowLoop, h0, ht0, h1, ht1, h2, ht2]

/-- Witness for the amended claim C1 at a concrete service. -/
theorem aiPoseGuidanceFlow_retry_backoff_policy_witness :
    ((aiPoseGuidanceFlow svcTwoTransientThenOk).outcome =
        Except.ok (normalizeOutput okOutput) ∧
      (aiPoseGuidanceFlow svcTwoTransientThenOk).calls = 3 ∧
      (aiPoseGuidanceFlow svcTwoTransientThenOk).delaysMs = [2 ^ 1 * 1000, 2 ^ 2 * 1000] ∧
      2 ^ 1 * 1000 < 2 ^ 2 * 1000) ∧
    ((aiPoseGuidanceFlow svcAlwaysTransient).outcome =
        Except.error (FlowError.exhausted (some err503)) ∧
      (aiPoseGuidanceFlow svcAlwaysTransient).calls = 3) :=
  ⟨(aiPoseGuidanceFlow_retry_backoff_policy svcTwoTransientThenOk).1
      err503 err503 okOutput rfl (by decide) rfl (by decide) rfl,
    (aiPoseGuidanceFlow_retry_backoff_policy svcAlwaysTransient).2
      err503 err503 err503 rfl (by decide) rfl (by decide) rfl (by decide)⟩

/-- Claim C2: if the first underlying call fails with a non-transient error
(anything other than the 503 signal), `aiPoseGuidanceFlow` re-throws that very
error after exactly 1 underlying call, with no sleep performed. -/
theorem aiPoseGuidanceFlow_nontransient_fails_fast
    (service : Nat → Except ServiceError AIPoseGuidanceOutput)
    (e : ServiceError) (h0 : service 0 = Except.error e)
    (ht : isTransient503 e = false) :
    (aiPoseGuidanceFlow service).outcome = Except.error (FlowError.rethrown e) ∧
    (aiPoseGuidanceFlow service).calls = 1 ∧
    (aiPoseGuidanceFlow service).delaysMs = [] := by
  simp [aiPoseGuidanceFlow, maxRetries, flowLoop, h0, ht]

/-- Witness for claim C2 at a concrete non-transient service. -/
theorem aiPoseGuidanceFlow_nontransient_fails_fast_witness :
    (aiPoseGuidanceFlow svcNonTransient).outcome =
      Except.error (FlowError.rethrown err400) ∧
    (aiPoseGuidanceFlow svcNonTransient).calls = 1 ∧
    (aiPoseGuidanceFlow svcNonTransient).delaysMs = [] :=
  aiPoseGuidanceFlow_nontransient_fails_fast svcNonTransient err400 rfl (by decide)

/-- Structure of every successful `flowLoop` run: the returned value is the
normalization of some underlying service output, so its landmark field is
always present, and it is the empty list whenever the service omitted it. -/
theorem flowLoop_ok_shape (service : Nat → Except ServiceError AIPoseGuidanceOutput) :
    ∀ fuel retryCount callIdx lastError delays r,
      (flowLoop service fuel retryCount callIdx lastError delays).outcome = Except.ok r →
      ∃ k out, service k = Except.ok out ∧ r = normalizeOutput out := by
  intro fuel
  induction fuel with
  | zero => intro retryCount callIdx lastError delays r h; simp [flowLoop] at h
  | succ fuel ih =>
    intro retryCount callIdx lastError delays r h
    rw [flowLoop] at h
    cases hc : service callIdx with
    | ok out =>
      rw [hc] at h
      simp only [Except.ok.injEq] at h
      exact ⟨callIdx, out, hc, h.symm⟩
    | error e =>
      rw [hc] at h
      by_cases htr : isTransient503 e
      · simp only [htr, if_true] at h
        exact ih (retryCount + 1) (callIdx + 1) (some e)
          (delays ++ [2 ^ (retryCount + 1) * 1000]) r h
      · simp [htr] at h

/-- The landmark field of a normalized output is never absent, and is the
empty list when the raw output omitted it. -/
theorem normalizeOutput_landmarks (out : AIPoseGuidanceOutput) :
    (∃ l, (normalizeOutput out).detectedLandmarks = some l) ∧
    (out.detectedLandmarks = none →
      (normalizeOutput out).detectedLandmarks = some []) := by
  cases h : out.detectedLandmarks <;> simp [normalizeOutput, h]

/-- Claim C3: every successfully completed `aiPoseGuidanceFlow` call returns a
result whose landmark field is a present (possibly empty) list, namely the
boundary-normalization of some underlying service output; when that service
output omitted `detectedLandmarks`, the returned field is the empty list. -/
theorem aiPoseGuidanceFlow_landmarks_never_absent
    (service : Nat → Except ServiceError AIPoseGuidanceOutput)
    (r : AIPoseGuidanceOutput)
    (h : (aiPoseGuidanceFlow service).outcome = Except.ok r) :
    (∃ l, r.detectedLandmarks = some l) ∧
    ∃ k out, service k = Except.ok out ∧ r = normalizeOutput out ∧
      (out.detectedLandmarks = none → r.detectedLandmarks = some []) := by
  obtain ⟨k, out, hk, hr⟩ := flowLoop_ok_shape service maxRetries 0 0 none [] r h
  have hnorm := normalizeOutput_landmarks out
  subst hr
  exact ⟨hnorm.1, k, out, hk, rfl, hnorm.2⟩

/-- Witness for claim C3 at a concrete service whose output omits the
landmark list. -/
theorem aiPoseGuidanceFlow_landmarks_never_absent_witness :
    (∃ l, (normalizeOutput okOutputNoLandmarks).detectedLandmarks = some l) ∧
    ∃ k out, svcOkNoLandmarks k = Except.ok out ∧
      normalizeOutput okOutputNoLandmarks = normalizeOutput out ∧
      (out.detectedLandmarks = none →
        (normalizeOutput okOutputNoLandmarks).detectedLandmarks = some []) :=
  aiPoseGuidanceFlow_landmarks_never_absent svcOkNoLandmarks
    (normalizeOutput okOutputNoLandmarks) rfl

/-! ## Data model of the capture controller (`CaptureWorkflow.tsx` and `lib/types.ts`) -/

/-- One entry of `POSE_TYPES` in `src/lib/types.ts`. -/
structure PoseTypeSpec where
  id : String
  name : String
  description : String
  shortInstruction : String
deriving DecidableEq, Inhabited

/-- `POSE_TYPES` from `src/lib/types.ts`: the four ordered pose specifications. -/
def POSE_TYPES : List PoseTypeSpec :=
  [ { id := "front_t_pose"
      name := "T-Pose (Front View)"
      description := "Stand facing the camera squarely, maintaining an upright posture. Extend both arms straight out to your sides, ensuring they are perfectly horizontal and form a 90-degree angle with your torso (parallel to the ground). Palms must face directly forward, with all fingers kept straight, extended, and held tightly together. Your thumbs should also be extended and aligned with your fingers. Feet should be positioned shoulder-width apart, with toes pointing directly forward towards the camera. Your head should be level, looking straight at the camera lens with a neutral facial expression (mouth closed, relaxed). Ensure your entire body, from head to toes including fingertips and heels, is fully visible within the camera frame and not cut off. Wear form-fitting clothing if possible to avoid obscuring body contours; avoid baggy or loose garments."
      shortInstruction := "Front T-Pose. Arms horizontal, palms forward, fingers straight. Feet shoulder-width. Look at camera." },
    { id := "side_left_a_pose"
      name := "A-Pose (Left Side View)"
      description := "Stand with your left side directly facing the camera, maintaining an upright posture. Allow arms to hang naturally, then move them slightly away from your body to form a 30-45 degree angle from your torso (an \"A\" shape). Keep fingers straight, extended, and held together, with palms facing towards your body (inwards). Feet should be together or no more than hip-width apart, with toes pointing forward (relative to your body, perpendicular to the camera). Your head should be level, looking straight ahead (perpendicular to the camera) with a neutral facial expression. Ensure your entire body, from head to toes, is fully visible. Wear form-fitting clothing if possible."
      shortInstruction := "Left A-Pose. Left side to camera. Arms slightly out, palms in. Feet together. Look ahead." },
    { id := "side_right_a_pose"
      name := "A-Pose (Right Side View)"
      description := "Stand with your right side directly facing the camera, maintaining an upright posture. Allow arms to hang naturally, then move them slightly away from your body to form a 30-45 degree angle from your torso (an \"A\" shape). Keep fingers straight, extended, and held together, with palms facing towards your body (inwards). Feet should be together or no more than hip-width apart, with toes pointing forward (relative to your body, perpendicular to the camera). Your head should be level, looking straight ahead (perpendicular to the camera) with a neutral facial expression. Ensure your entire body, from head to toes, is fully visible. Wear form-fitting clothing if possible."
      shortInstruction := "Right A-Pose. Right side to camera. Arms slightly out, palms in. Feet together. Look ahead." },
    { id := "back_t_pose"
      name := "T-Pose (Back View)"
      description := "Stand with your back squarely facing the camera, maintaining an upright posture. Extend both arms straight out to your sides, ensuring they are perfectly horizontal and form a 90-degree angle with your torso (parallel to the ground). Palms must face directly backward (away from the camera), with all fingers kept straight, extended, and held tightly together. Your thumbs should also be extended and aligned with your fingers. Feet should be positioned shoulder-width apart, with toes pointing directly forward (away from the camera). Your head should be level, looking straight ahead (away from the camera) with a neutral facial expression. Ensure your entire body, from head to toes including fingertips and heels, is fully visible. Wear form-fitting clothing if possible."
      shortInstruction := "Back T-Pose. Arms horizontal, palms back, fingers straight. Feet shoulder-width. Look straight ahead." } ]

/-- `PosePhoto` from `src/lib/types.ts`: one record per pose. -/
structure PosePhoto where
  id : String
  name : String
  dataUri : Option String
  isCorrect : Option Bool
  feedback : Option String
deriving DecidableEq

/-- `initialPhotosState`: one empty record per `POSE_TYPES` entry. -/
def initialPhotosState : List PosePhoto :=
  POSE_TYPES.map fun pt =>
    { id := pt.id, name := pt.name, dataUri := none, isCorrect := none, feedback := none }

/-- `UserProfile` required numeric fields (`height`, `weight`, `age`).  The
source type is `number | string`; the profile form coerces them to positive
numbers, and the controller tests them by JS truthiness, so a field is
embedded as `Option Nat` with `none` for absent/empty and `some 0` for the
falsy zero. -/
structure UserProfile where
  height : Option Nat
  weight : Option Nat
  age : Option Nat
deriving DecidableEq

/-- JS truthiness of a numeric profile field. -/
def truthyNum : Option Nat → Bool
  | none => false
  | some v => v != 0

/-- The profile completeness test of `setupCameraAndTF` (line 468):
`!profile || !profile.height || !profile.weight || !profile.age`, negated. -/
def profileComplete : Option UserProfile → Bool
  | none => false
  | some p => truthyNum p.height && truthyNum p.weight && truthyNum p.age

/-- The `CapturePhase` union type of the controller revision under
verification. -/
inductive CapturePhase where
  | IDLE
  | INITIALIZING_CAMERA_TF
  | TF_MODEL_LOADING
  | READY_TO_START
  | INITIALIZING_POSE
  | GUIDING
  | ANALYZING
  | CAPTURING_PHOTO
  | PHOTO_FLASH
  | POSE_CONFIRMED
  | ALL_POSES_CAPTURED
  | CAMERA_ERROR
  | PROFILE_INCOMPLETE
  | MODEL_LOAD_ERROR
deriving DecidableEq

/-- The `PoseCorrectness` union type. -/
inductive PoseCorrectness where
  | NEUTRAL
  | CORRECT
  | ADJUSTMENT_NEEDED
deriving DecidableEq

/-- Phases that are terminal for the session (spec section 4.3: `COMPLETE` and
the error phases require a full reset to leave). -/
def isTerminalPhase : CapturePhase → Bool
  | CapturePhase.ALL_POSES_CAPTURED => true
  | CapturePhase.CAMERA_ERROR => true
  | CapturePhase.PROFILE_INCOMPLETE => true
  | CapturePhase.MODEL_LOAD_ERROR => true
  | _ => false

/-- The controller state: the React state hooks and refs of `CaptureWorkflow`.
`guidanceIntervalActive` stands for "the sampling interval timer is pending"
(`guidanceIntervalRef` holding a live interval); `clientDetector` for the
MoveNet detector object being non-null.  `inFlightCalls` is a ghost counter of
unresolved `aiPoseGuidance` promises — it is not a program variable, it
instruments the event semantics so that the single-flight property can be
stated. -/
structure ControllerState where
  profile : Option UserProfile
  photos : List PosePhoto
  currentPoseIndex : Nat
  capturePhase : CapturePhase
  poseCorrectness : PoseCorrectness
  hasCameraPermission : Option Bool
  aiFeedbackText : Option String
  backendDetectedLandmarks : Option (List LandmarkPoint)
  isBackendProcessing : Bool
  clientDetector : Bool
  isClientDetectorLoading : Bool
  guidanceIntervalActive : Bool
  inFlightCalls : Nat
deriving DecidableEq

/-- Side-effect commands the controller hands to its collaborators. -/
inductive Command where
  | callAnalysis (input : AIPoseGuidanceInput)
  | speak (text : String)
  | toast (title : String) (description : String)
deriving DecidableEq

/-- The mount-time state of the component: all `useState` initial values, with
`photos` at `initialPhotosState`. -/
def initialState (profile : Option UserProfile) : ControllerState :=
  { profile := profile
    photos := initialPhotosState
    currentPoseIndex := 0
    capturePhase := CapturePhase.IDLE
    poseCorrectness := PoseCorrectness.NEUTRAL
    hasCameraPermission := none
    aiFeedbackText := none
    backendDetectedLandmarks := none
    isBackendProcessing := false
    clientDetector := false
    isClientDetectorLoading := false
    guidanceIntervalActive := false
    inFlightCalls := 0 }

/-- `POSE_TYPES[currentPoseIndex]` — `undefined` when out of bounds. -/
def currentPoseInfo (s : ControllerState) : Option PoseTypeSpec :=
  POSE_TYPES[s.currentPoseIndex]?

/-! ## Controller handlers (`CaptureWorkflow.tsx`, lines 603-765) -/

/-- `runAiGuidance` up to its `await aiPoseGuidance(aiInput)` (lines 603-628).
`refsReady` stands for `videoRef.current && canvasRef.current` being non-null,
`ctxOk` for `tempCanvas.getContext` succeeding, and `frame` is the data URI the
frame sampler produces for the current video frame.  The guard on line 604
makes the tick a no-op whenever a call is already being processed or the phase
is not `GUIDING`; otherwise the processing flag is raised, the phase moves to
`ANALYZING`, and one `callAnalysis` command is issued (raising the ghost
in-flight counter). -/
def runAiGuidance (s : ControllerState) (refsReady ctxOk : Bool) (frame : String) :
    ControllerState × List Command :=
  match POSE_TYPES[s.currentPoseIndex]? with
  | none => (s, [])
  | some poseInfo =>
    if refsReady = false ∨ s.isBackendProcessing = true ∨
        s.capturePhase ≠ CapturePhase.GUIDING then
      (s, [])
    else
      let s1 := { s with isBackendProcessing := true
                         capturePhase := CapturePhase.ANALYZING
                         aiFeedbackText := some "Verifying pose with AI..." }
      if ctxOk = false then
        ({ s1 with isBackendProcessing := false, capturePhase := CapturePhase.GUIDING }, [])
      else
        ({ s1 with inFlightCalls := s1.inFlightCalls + 1 },
          [Command.callAnalysis
            { photoDataUri := frame
              currentPose := "User attempting " ++ poseInfo.name ++ "."
              desiredPose := poseInfo.description }])

/-- The continuation of `runAiGuidance` when the awaited `aiPoseGuidance` call
resolves successfully (lines 630-677 plus the `finally` on line 688).
`poseInfo` is the pose captured by the closure at call time.  Only the
synchronous part runs here; the `setTimeout` chains of the correct branch are
separate events below. -/
def resolveAnalysisSuccess (s : ControllerState) (poseInfo : PoseTypeSpec)
    (result : AIPoseGuidanceOutput) : ControllerState × List Command :=
  let s1 := { s with aiFeedbackText := some result.feedback
                     backendDetectedLandmarks := some (result.detectedLandmarks.getD [])
                     inFlightCalls := s.inFlightCalls - 1 }
  if result.isCorrectPose then
    ({ s1 with poseCorrectness := PoseCorrectness.CORRECT
               capturePhase := CapturePhase.CAPTURING_PHOTO
               isBackendProcessing := false },
      [Command.speak ("Perfect! Capturing " ++ poseInfo.name ++ ". Hold still.")])
  else
    ({ s1 with poseCorrectness := PoseCorrectness.ADJUSTMENT_NEEDED
               capturePhase := CapturePhase.GUIDING
               isBackendProcessing := false },
      [Command.speak result.feedback,
        Command.toast "Quick Tip!" result.feedback])

/-- The `catch` branch of `runAiGuidance` (lines 678-686 plus the `finally`):
the terminal client failure is absorbed locally. -/
def resolveAnalysisFailure (s : ControllerState) : ControllerState × List Command :=
  let errorMessage := "AI analysis hiccup. Let\x27s try again."
  ({ s with aiFeedbackText := some errorMessage
            backendDetectedLandmarks := none
            poseCorrectness := PoseCorrectness.NEUTRAL
            capturePhase := CapturePhase.GUIDING
            isBackendProcessing := false
            inFlightCalls := s.inFlightCalls - 1 },
    [Command.speak errorMessage,
      Command.toast "AI Error" errorMessage])

/-- The 500 ms capture-dwell timeout of the correct branch (line 639-640):
the phase moves to `PHOTO_FLASH`. -/
def captureDwellElapsed (s : ControllerState) : ControllerState :=
  { s with capturePhase := CapturePhase.PHOTO_FLASH }

/-- The 300 ms flash timeout (lines 641-651): the phase moves to
`POSE_CONFIRMED` and the photo record of the captured pose is written with the
sampled frame, `isCorrect: true` and the fixed confirmation text. -/
def flashDwellElapsed (s : ControllerState) (poseInfo : PoseTypeSpec) (frame : String) :
    ControllerState × List Command :=
  ({ s with capturePhase := CapturePhase.POSE_CONFIRMED
            photos := s.photos.map fun p =>
              if p.id = poseInfo.id then
                { p with dataUri := some frame
                         isCorrect := some true
                         feedback := some "Pose captured successfully." }
              else p
            aiFeedbackText := some (poseInfo.name ++ " captured!") },
    [Command.speak "Got it!"])

/-- The `PHOTO_CONFIRMATION_DELAY_MS` timeout (lines 653-663): advance to the
next pose, or finish the session when the captured pose was the last one.
`capturedIndex` is the `currentPoseIndex` value captured by the closure. -/
def confirmDwellElapsed (s : ControllerState) (capturedIndex : Nat) :
    ControllerState × List Command :=
  if capturedIndex < POSE_TYPES.length - 1 then
    ({ s with currentPoseIndex := s.currentPoseIndex + 1
              capturePhase := CapturePhase.INITIALIZING_POSE }, [])
  else
    ({ s with capturePhase := CapturePhase.ALL_POSES_CAPTURED
              aiFeedbackText := some "All poses captured! You can now view your analysis."
              guidanceIntervalActive := false },
      [Command.speak "All poses captured! Fantastic work."])

/-- The `INITIALIZING_POSE` effect (lines 710-723): announce the upcoming pose
and reset the correctness flag and overlays.  The preparation delay that then
moves the phase to `GUIDING` is `initPoseDelayElapsed`. -/
def initializingPoseEffect (s : ControllerState) : ControllerState × List Command :=
  match POSE_TYPES[s.currentPoseIndex]? with
  | none => (s, [])
  | some poseInfo =>
    if s.capturePhase = CapturePhase.INITIALIZING_POSE then
      let instruction :=
        if poseInfo.shortInstruction = "" then poseInfo.description
        else poseInfo.shortInstruction
      ({ s with poseCorrectness := PoseCorrectness.NEUTRAL
                backendDetectedLandmarks := none
                aiFeedbackText := some ("Next: " ++ poseInfo.name ++ ". " ++ instruction) },
        [Command.speak ("Get ready for " ++ poseInfo.name ++ ". " ++ instruction)])
    else (s, [])

/-- The `NEXT_POSE_DELAY_MS` timeout scheduled by the `INITIALIZING_POSE`
effect (lines 719-721). -/
def initPoseDelayElapsed (s : ControllerState) : ControllerState :=
  if s.capturePhase = CapturePhase.INITIALIZING_POSE then
    { s with capturePhase := CapturePhase.GUIDING }
  else s

/-- The guidance-interval effect (lines 693-707): the sampling interval exists
exactly while the phase is `GUIDING`, the camera is granted, no backend call is
being processed, and the advisory detector is loaded. -/
def guidanceIntervalEffect (s : ControllerState) : ControllerState :=
  if s.capturePhase = CapturePhase.GUIDING ∧ s.hasCameraPermission = some true ∧
      s.isBackendProcessing = false ∧ s.clientDetector = true then
    { s with guidanceIntervalActive := true }
  else
    { s with guidanceIntervalActive := false }

/-- `setupCameraAndTF` (lines 463-507), run from the `IDLE` phase: route to
`PROFILE_INCOMPLETE` when a required profile field is missing, otherwise
request the camera; `camOk = false` covers both an unsupported browser and a
denied permission / TFJS setup failure, all of which land in `CAMERA_ERROR`. -/
def setupCameraAndTF (s : ControllerState) (camOk : Bool) : ControllerState × List Command :=
  if s.capturePhase ≠ CapturePhase.IDLE then (s, [])
  else
    let s1 := { s with capturePhase := CapturePhase.INITIALIZING_CAMERA_TF }
    if profileComplete s.profile = false then
      ({ s1 with capturePhase := CapturePhase.PROFILE_INCOMPLETE }, [])
    else if camOk then
      ({ s1 with hasCameraPermission := some true },
        [Command.toast "System Initialized" "TensorFlow.js backend is active."])
    else
      ({ s1 with hasCameraPermission := some false
                 capturePhase := CapturePhase.CAMERA_ERROR }, [])

/-- The model-loading effect (lines 511-540), collapsing the
`TF_MODEL_LOADING` window into one atomic event: guarded exactly by the
effect's own condition, it ends in `READY_TO_START` with the detector loaded,
or in `MODEL_LOAD_ERROR`. -/
def loadModelEffect (s : ControllerState) (modelOk : Bool) : ControllerState × List Command :=
  if s.hasCameraPermission ≠ some true ∨ s.clientDetector = true ∨
      s.isClientDetectorLoading = true then
    (s, [])
  else if modelOk then
    ({ s with capturePhase := CapturePhase.READY_TO_START
              clientDetector := true
              isClientDetectorLoading := false },
      [Command.toast "Pose Model Ready!" "BodyWise is ready to guide you."])
  else
    ({ s with capturePhase := CapturePhase.MODEL_LOAD_ERROR
              isClientDetectorLoading := false },
      [Command.toast "Model Load Error" "Could not load the pose detection model. Please try refreshing the page."])

/-- `handleStartCapture` (lines 726-754). -/
def handleStartCapture (s : ControllerState) : ControllerState × List Command :=
  let canStart := (s.capturePhase = CapturePhase.READY_TO_START ∨
      s.capturePhase = CapturePhase.IDLE ∨
      s.capturePhase = CapturePhase.MODEL_LOAD_ERROR) ∧
    s.hasCameraPermission = some true ∧ s.profile ≠ none ∧ s.clientDetector = true
  let isPaused := s.capturePhase = CapturePhase.READY_TO_START ∧
    ((∃ p ∈ s.photos, p.dataUri ≠ none ∧ p.isCorrect = some false) ∨
      0 < s.currentPoseIndex)
  if s.capturePhase = CapturePhase.MODEL_LOAD_ERROR then
    ({ s with capturePhase := CapturePhase.IDLE
              hasCameraPermission := none
              clientDetector := false },
      [Command.toast "Retrying Setup" "Attempting to initialize camera and model again."])
  else if canStart ∨ isPaused then
    if s.capturePhase = CapturePhase.IDLE ∨ ¬ isPaused then
      ({ s with currentPoseIndex := 0
                photos := initialPhotosState
                capturePhase := CapturePhase.INITIALIZING_POSE }, [])
    else
      ({ s with capturePhase := CapturePhase.INITIALIZING_POSE }, [])
  else if s.capturePhase = CapturePhase.GUIDING ∨ s.capturePhase = CapturePhase.ANALYZING then
    if s.guidanceIntervalActive then
      ({ s with guidanceIntervalActive := false
                capturePhase := CapturePhase.READY_TO_START
                aiFeedbackText := some "Capture paused. Press Start to resume." },
        [Command.speak "Capture paused."])
    else (s, [])
  else (s, [])

/-- `handleRetryCurrentPose` (lines 756-765): cancel the sampling interval,
drop the processing flag, restore the active pose record to its
`initialPhotosState` form and re-enter `INITIALIZING_POSE`.  (The source
clears the interval timer without nulling the ref; the embedding tracks the
pending timer itself.) -/
def handleRetryCurrentPose (s : ControllerState) : ControllerState × List Command :=
  match POSE_TYPES[s.currentPoseIndex]? with
  | none => (s, [])
  | some poseInfo =>
    ({ s with guidanceIntervalActive := false
              isBackendProcessing := false
              photos := s.photos.map fun p =>
                if p.id = poseInfo.id then
                  ((initialPhotosState.find? fun ip => ip.id == poseInfo.id).getD p)
                else p
              capturePhase := CapturePhase.INITIALIZING_POSE },
      [Command.toast "Pose Reset" ("Let\x27s try " ++ poseInfo.name ++ " again.")])

/-! ## Event semantics and reachable states

One cooperative-scheduling event per suspension point or user action.  The
`analysisResolved`/`analysisFailed` continuations only exist while a promise
is outstanding, so they are enabled only when the ghost in-flight counter is
positive; the retry and start buttons are enabled only when their `disabled`
attribute (lines 837 and 984 of the source) is false. -/

inductive Event where
  | setupCamera (camOk : Bool)
  | loadModel (modelOk : Bool)
  | startButton
  | retryPoseButton
  | intervalEffect
  | initPoseEffect
  | initPoseDelay
  | tick (refsReady ctxOk : Bool) (frame : String)
  | analysisResolved (poseInfo : PoseTypeSpec) (result : AIPoseGuidanceOutput)
  | analysisFailed
  | captureDwell
  | flashDwell (poseInfo : PoseTypeSpec) (frame : String)
  | confirmDwell (capturedIndex : Nat)

/-- The `disabled` attribute of the start/pause button (line 837). -/
def startButtonDisabled (s : ControllerState) : Bool :=
  s.isBackendProcessing || s.capturePhase == CapturePhase.CAMERA_ERROR ||
    s.capturePhase == CapturePhase.PROFILE_INCOMPLETE ||
    s.capturePhase == CapturePhase.CAPTURING_PHOTO ||
    s.capturePhase == CapturePhase.PHOTO_FLASH ||
    s.capturePhase == CapturePhase.POSE_CONFIRMED ||
    s.isClientDetectorLoading || s.capturePhase == CapturePhase.TF_MODEL_LOADING ||
    s.capturePhase == CapturePhase.INITIALIZING_CAMERA_TF

/-- The `disabled` attribute of the retry-pose button (line 984). -/
def retryButtonDisabled (s : ControllerState) : Bool :=
  s.isBackendProcessing || s.capturePhase == CapturePhase.CAPTURING_PHOTO ||
    s.capturePhase == CapturePhase.PHOTO_FLASH ||
    s.capturePhase == CapturePhase.POSE_CONFIRMED ||
    s.isClientDetectorLoading

/-- One step of the controller. -/
def step (s : ControllerState) : Event → ControllerState × List Command
  | Event.setupCamera camOk => setupCameraAndTF s camOk
  | Event.loadModel modelOk => loadModelEffect s modelOk
  | Event.startButton =>
      if startButtonDisabled s then (s, []) else handleStartCapture s
  | Event.retryPoseButton =>
      if retryButtonDisabled s then (s, []) else handleRetryCurrentPose s
  | Event.intervalEffect => (guidanceIntervalEffect s, [])
  | Event.initPoseEffect => initializingPoseEffect s
  | Event.initPoseDelay => (initPoseDelayElapsed s, [])
  | Event.tick refsReady ctxOk frame =>
      if s.guidanceIntervalActive then runAiGuidance s refsReady ctxOk frame else (s, [])
  | Event.analysisResolved poseInfo result =>
      if 0 < s.inFlightCalls then resolveAnalysisSuccess s poseInfo result else (s, [])
  | Event.analysisFailed =>
      if 0 < s.inFlightCalls then resolveAnalysisFailure s else (s, [])
  | Event.captureDwell => (captureDwellElapsed s, [])
  | Event.flashDwell poseInfo frame => flashDwellElapsed s poseInfo frame
  | Event.confirmDwell capturedIndex => confirmDwellElapsed s capturedIndex

/-- States the controller can be in: the mount state for some profile, closed
under `step`. -/
inductive Reachable : ControllerState → Prop where
  | init (profile : Option UserProfile) : Reachable (initialState profile)
  | next (s : ControllerState) (e : Event) : Reachable s → Reachable (step s e).1

/-- The in-flight ghost counter mirrors the processing flag. -/
def flightInv (s : ControllerState) : Prop :=
  s.inFlightCalls = if s.isBackendProcessing then 1 else 0

/-- Every event preserves `flightInv`. -/
theorem step_flightInv (s : ControllerState) (e : Event) (h : flightInv s) :
    flightInv (step s e).1 := by
  unfold flightInv at h ⊢
  cases hb : s.isBackendProcessing <;> rw [hb] at h <;> simp at h <;>
    cases e <;>
    simp only [step, setupCameraAndTF, loadModelEffect, handleStartCapture,
      handleRetryCurrentPose, guidanceIntervalEffect, initializingPoseEffect,
      initPoseDelayElapsed, runAiGuidance, resolveAnalysisSuccess,
      resolveAnalysisFailure, captureDwellElapsed, flashDwellElapsed,
      confirmDwellElapsed, retryButtonDisabled, startButtonDisabled] <;>
    (repeat' split) <;> simp_all

/-- `flightInv` holds in every reachable state. -/
theorem reachable_flightInv (s : ControllerState) (h : Reachable s) : flightInv s := by
  induction h with
  | init profile => simp [flightInv, initialState]
  | next s e _ ih => exact step_flightInv s e ih

/-- A photo record marked correct carries its image data and feedback. -/
def photoIntegrity (p : PosePhoto) : Prop :=
  p.isCorrect = some true → p.dataUri ≠ none ∧ p.feedback ≠ none

/-- All records of a controller state satisfy `photoIntegrity`. -/
def photosInv (s : ControllerState) : Prop :=
  ∀ p ∈ s.photos, photoIntegrity p

theorem initial_isCorrect_none : ∀ p ∈ initialPhotosState, p.isCorrect = none := by
  decide

theorem initial_photos_integrity : ∀ p ∈ initialPhotosState, photoIntegrity p := by
  intro p hp hcorr
  rw [initial_isCorrect_none p hp] at hcorr
  cases hcorr

/-- The confirmed-capture write preserves record integrity: the written record
carries `some frame` and the fixed confirmation text. -/
theorem map_confirm_integrity (l : List PosePhoto) (pid frame : String)
    (h : ∀ p ∈ l, photoIntegrity p) :
    ∀ p ∈ l.map (fun p =>
        if p.id = pid then
          { p with dataUri := some frame
                   isCorrect := some true
                   feedback := some "Pose captured successfully." }
        else p),
      photoIntegrity p := by
  intro p hp
  rcases List.mem_map.1 hp with ⟨q, hq, rfl⟩
  by_cases hid : q.id = pid
  · simp [hid, photoIntegrity]
  · simpa [hid] using h q hq

/-- The retry reset preserves record integrity: the restored record comes from
`initialPhotosState`, where every `isCorrect` is `null`. -/
theorem map_reset_integrity (l : List PosePhoto) (pid : String)
    (h : ∀ p ∈ l, photoIntegrity p) :
    ∀ p ∈ l.map (fun p =>
        if p.id = pid then
          ((initialPhotosState.find? fun ip => ip.id == pid).getD p)
        else p),
      photoIntegrity p := by
  intro p hp
  rcases List.mem_map.1 hp with ⟨q, hq, rfl⟩
  by_cases hid : q.id = pid
  · simp only [hid, if_pos]
    cases hf : initialPhotosState.find? fun ip => ip.id == pid with
    | none => simpa [hf] using h q hq
    | some ip =>
      have hmem := List.mem_of_find?_eq_some hf
      simp only [hf, Option.getD_some]
      exact initial_photos_integrity ip hmem
  · simpa [hid] using h q hq

/-- Every event preserves `photosInv`. -/
theorem step_photosInv (s : ControllerState) (e : Event) (h : photosInv s) :
    photosInv (step s e).1 := by
  unfold photosInv at h ⊢
  cases e with
  | setupCamera camOk =>
    simp only [step, setupCameraAndTF]
    repeat' split
    all_goals exact h
  | loadModel modelOk =>
    simp only [step, loadModelEffect]
    repeat' split
    all_goals exact h
  | startButton =>
    simp only [step, handleStartCapture]
    repeat' split
    all_goals first | exact h | exact initial_photos_integrity
  | retryPoseButton =>
    simp only [step, handleRetryCurrentPose]
    repeat' split
    all_goals first | exact h | exact map_reset_integrity s.photos _ h
  | intervalEffect =>
    simp only [step, guidanceIntervalEffect]
    repeat' split
    all_goals exact h
  | initPoseEffect =>
    simp only [step, initializingPoseEffect]
    repeat' split
    all_goals exact h
  | initPoseDelay =>
    simp only [step, initPoseDelayElapsed]
    repeat' split
    all_goals exact h
  | tick refsReady ctxOk frame =>
    simp only [step, runAiGuidance]
    repeat' split
    all_goals exact h
  | analysisResolved poseInfo result =>
    simp only [step, resolveAnalysisSuccess]
    repeat' split
    all_goals exact h
  | analysisFailed =>
    simp only [step, resolveAnalysisFailure]
    repeat' split
    all_goals exact h
  | captureDwell =>
    simp only [step, captureDwellElapsed]
    exact h
  | flashDwell poseInfo frame =>
    simp only [step, flashDwellElapsed]
    exact map_confirm_integrity s.photos poseInfo.id frame h
  | confirmDwell capturedIndex =>
    simp only [step, confirmDwellElapsed]
    repeat' split
    all_goals exact h

/-- `photosInv` holds in every reachable state. -/
theorem reachable_photosInv (s : ControllerState) (h : Reachable s) : photosInv s := by
  induction h with
  | init profile => exact fun p hp => initial_photos_integrity p hp
  | next s e _ ih => exact step_photosInv s e ih

/-! ## Claims C4, C5, C6, C10 -/

/-- Claim C4: in every reachable controller state at most one analysis call is
in flight, and a sampling tick fired while a prior call is unresolved (the
processing flag set, or the phase not `GUIDING`) leaves the state unchanged and
issues no command — in particular no second `callAnalysis`. -/
theorem controller_single_flight (s : ControllerState) (h : Reachable s) :
    s.inFlightCalls ≤ 1 ∧
    ∀ refsReady ctxOk frame,
      (s.isBackendProcessing = true ∨ s.capturePhase ≠ CapturePhase.GUIDING) →
      runAiGuidance s refsReady ctxOk frame = (s, []) := by
  constructor
  · have hf := reachable_flightInv s h
    unfold flightInv at hf
    split at hf <;> omega
  · intro refsReady ctxOk frame hor
    cases hpose : POSE_TYPES[s.currentPoseIndex]? with
    | none => simp [runAiGuidance, hpose]
    | some poseInfo =>
      simp only [runAiGuidance, hpose]
      rw [if_pos (Or.inr hor)]

/-- Witness for claim C4 at the mount state. -/
theorem controller_single_flight_witness :
    (initialState none).inFlightCalls ≤ 1 ∧
    runAiGuidance (initialState none) true true "data:image/webp;base64,AAAA" =
      (initialState none, []) :=
  ⟨(controller_single_flight (initialState none) (Reachable.init none)).1,
    (controller_single_flight (initialState none) (Reachable.init none)).2
      true true "data:image/webp;base64,AAAA" (Or.inr (by decide))⟩

/-- Claim C5: an analysis success with `isCorrectPose = false` sets the
correctness flag to `ADJUSTMENT_NEEDED`, surfaces the returned feedback (both
as the feedback text and as a `speak` command), returns the phase to
`GUIDING`, and leaves the photos and the current pose index unchanged (so an
`isCorrect` that was `null` stays `null`). -/
theorem controller_adjustment_needed_branch (s : ControllerState)
    (poseInfo : PoseTypeSpec) (result : AIPoseGuidanceOutput)
    (h : result.isCorrectPose = false) :
    (resolveAnalysisSuccess s poseInfo result).1.poseCorrectness =
        PoseCorrectness.ADJUSTMENT_NEEDED ∧
    (resolveAnalysisSuccess s poseInfo result).1.aiFeedbackText = some result.feedback ∧
    Command.speak result.feedback ∈ (resolveAnalysisSuccess s poseInfo result).2 ∧
    (resolveAnalysisSuccess s poseInfo result).1.capturePhase = CapturePhase.GUIDING ∧
    (resolveAnalysisSuccess s poseInfo result).1.photos = s.photos ∧
    (resolveAnalysisSuccess s poseInfo result).1.currentPoseIndex = s.currentPoseIndex := by
  simp [resolveAnalysisSuccess, h]

/-- A concrete incorrect-pose analysis result. -/
def incorrectResult : AIPoseGuidanceOutput :=
  { feedback := "Raise your left arm to horizontal."
    isCorrectPose := false
    detectedLandmarks := some [] }

/-- Witness for claim C5 at the mount state and a concrete incorrect result. -/
theorem controller_adjustment_needed_branch_witness :
    (resolveAnalysisSuccess (initialState none) POSE_TYPES.headI incorrectResult).1.poseCorrectness =
        PoseCorrectness.ADJUSTMENT_NEEDED ∧
    (resolveAnalysisSuccess (initialState none) POSE_TYPES.headI incorrectResult).1.aiFeedbackText =
        some incorrectResult.feedback ∧
    Command.speak incorrectResult.feedback ∈
        (resolveAnalysisSuccess (initialState none) POSE_TYPES.headI incorrectResult).2 ∧
    (resolveAnalysisSuccess (initialState none) POSE_TYPES.headI incorrectResult).1.capturePhase =
        CapturePhase.GUIDING ∧
    (resolveAnalysisSuccess (initialState none) POSE_TYPES.headI incorrectResult).1.photos =
        (initialState none).photos ∧
    (resolveAnalysisSuccess (initialState none) POSE_TYPES.headI incorrectResult).1.currentPoseIndex =
        (initialState none).currentPoseIndex :=
  controller_adjustment_needed_branch (initialState none) POSE_TYPES.headI incorrectResult rfl

/-- Claim C6: a terminal analysis-client failure is absorbed locally: the
controller surfaces the generic retry-oriented message, clears the landmark
overlay, resets the correctness flag to `NEUTRAL` and returns to `GUIDING` — a
non-terminal phase — leaving photos and pose index untouched, so the session is
never aborted by an analysis failure. -/
theorem controller_failure_locally_absorbed (s : ControllerState) :
    (resolveAnalysisFailure s).1.aiFeedbackText =
        some "AI analysis hiccup. Let\x27s try again." ∧
    Command.speak "AI analysis hiccup. Let\x27s try again." ∈ (resolveAnalysisFailure s).2 ∧
    (resolveAnalysisFailure s).1.backendDetectedLandmarks = none ∧
    (resolveAnalysisFailure s).1.poseCorrectness = PoseCorrectness.NEUTRAL ∧
    (resolveAnalysisFailure s).1.capturePhase = CapturePhase.GUIDING ∧
    isTerminalPhase (resolveAnalysisFailure s).1.capturePhase = false ∧
    (resolveAnalysisFailure s).1.photos = s.photos ∧
    (resolveAnalysisFailure s).1.currentPoseIndex = s.currentPoseIndex := by
  simp [resolveAnalysisFailure, isTerminalPhase]

/-- Witness for claim C6 at the mount state. -/
theorem controller_failure_locally_absorbed_witness :
    (resolveAnalysisFailure (initialState none)).1.aiFeedbackText =
        some "AI analysis hiccup. Let\x27s try again." ∧
    Command.speak "AI analysis hiccup. Let\x27s try again." ∈
        (resolveAnalysisFailure (initialState none)).2 ∧
    (resolveAnalysisFailure (initialState none)).1.backendDetectedLandmarks = none ∧
    (resolveAnalysisFailure (initialState none)).1.poseCorrectness =
        PoseCorrectness.NEUTRAL ∧
    (resolveAnalysisFailure (initialState none)).1.capturePhase = CapturePhase.GUIDING ∧
    isTerminalPhase (resolveAnalysisFailure (initialState none)).1.capturePhase = false ∧
    (resolveAnalysisFailure (initialState none)).1.photos = (initialState none).photos ∧
    (resolveAnalysisFailure (initialState none)).1.currentPoseIndex =
        (initialState none).currentPoseIndex :=
  controller_failure_locally_absorbed (initialState none)

/-- Claim C10: in every reachable state of the controller — the initial state
and every state obtained through confirmed-capture writes, retry resets or any
other event — a record with `isCorrect = true` carries a non-null image and
non-null feedback. -/
theorem controller_correct_photo_integrity (s : ControllerState) (h : Reachable s) :
    ∀ p ∈ s.photos, p.isCorrect = some true → p.dataUri ≠ none ∧ p.feedback ≠ none :=
  fun p hp => reachable_photosInv s h p hp

/-- A reachable state holding a confirmed capture for the first pose. -/
def confirmedFrontState : ControllerState :=
  (step (initialState none)
    (Event.flashDwell POSE_TYPES.headI "data:image/webp;base64,AAAA")).1

/-- Witness for claim C10 at a reachable state with a record marked correct. -/
theorem controller_correct_photo_integrity_witness :
    ({ id := "front_t_pose"
       name := "T-Pose (Front View)"
       dataUri := some "data:image/webp;base64,AAAA"
       isCorrect := some true
       feedback := some "Pose captured successfully." } : PosePhoto).dataUri ≠ none ∧
    ({ id := "front_t_pose"
       name := "T-Pose (Front View)"
       dataUri := some "data:image/webp;base64,AAAA"
       isCorrect := some true
       feedback := some "Pose captured successfully." } : PosePhoto).feedback ≠ none :=
  controller_correct_photo_integrity confirmedFrontState
    (Reachable.next _ _ (Reachable.init none)) _ (by decide) (by decide)

/-! ## Claim C8 — retry-current-pose -/

/-- Looking up the initial (empty) record of any catalog pose succeeds and
yields the empty record with that pose id and name. -/
theorem find_initial_record (idx : Nat) (poseInfo : PoseTypeSpec)
    (hpose : POSE_TYPES[idx]? = some poseInfo) :
    initialPhotosState.find? (fun ip => ip.id == poseInfo.id) =
      some { id := poseInfo.id, name := poseInfo.name, dataUri := none
             isCorrect := none, feedback := none } := by
  have hmem : poseInfo ∈ POSE_TYPES := by
    have hlt : idx < POSE_TYPES.length := by
      by_contra hge
      rw [List.getElem?_eq_none (by omega)] at hpose
      cases hpose
    have := List.getElem?_eq_getElem hlt
    rw [this] at hpose
    cases hpose
    exact List.getElem_mem hlt
  fin_cases hmem <;> decide

/-- The retry reset map is idempotent on photo lists. -/
theorem retry_map_idem (poseInfo : PoseTypeSpec)
    (hfind : initialPhotosState.find? (fun ip => ip.id == poseInfo.id) =
      some { id := poseInfo.id, name := poseInfo.name, dataUri := none
             isCorrect := none, feedback := none })
    (l : List PosePhoto) :
    ((l.map fun p => if p.id = poseInfo.id then
        ((initialPhotosState.find? fun ip => ip.id == poseInfo.id).getD p) else p).map
      fun p => if p.id = poseInfo.id then
        ((initialPhotosState.find? fun ip => ip.id == poseInfo.id).getD p) else p) =
    (l.map fun p => if p.id = poseInfo.id then
        ((initialPhotosState.find? fun ip => ip.id == poseInfo.id).getD p) else p) := by
  rw [List.map_map]
  apply List.map_congr_left
  intro a _
  by_cases h : a.id = poseInfo.id
  · simp [Function.comp, h, hfind]
  · simp [Function.comp, h]

/-- Claim C8: `handleRetryCurrentPose`, run from any state whose pose index is
in range (the source guard `!currentPoseInfo`), re-enters `INITIALIZING_POSE`
with `currentPoseIndex` unchanged, cancels the sampling interval, resets the
active pose record to its empty form while leaving every other record
untouched, and is idempotent on the controller state. -/
theorem controller_retry_current_pose (s : ControllerState) (poseInfo : PoseTypeSpec)
    (hpose : POSE_TYPES[s.currentPoseIndex]? = some poseInfo) :
    (handleRetryCurrentPose s).1.capturePhase = CapturePhase.INITIALIZING_POSE ∧
    (handleRetryCurrentPose s).1.currentPoseIndex = s.currentPoseIndex ∧
    (handleRetryCurrentPose s).1.guidanceIntervalActive = false ∧
    (handleRetryCurrentPose s).1.isBackendProcessing = false ∧
    (∀ p ∈ (handleRetryCurrentPose s).1.photos, p.id = poseInfo.id →
      p.dataUri = none ∧ p.isCorrect = none ∧ p.feedback = none) ∧
    (∀ p ∈ (handleRetryCurrentPose s).1.photos, p.id ≠ poseInfo.id → p ∈ s.photos) ∧
    (handleRetryCurrentPose (handleRetryCurrentPose s).1).1 = (handleRetryCurrentPose s).1 := by
  have hfind := find_initial_record s.currentPoseIndex poseInfo hpose
  refine ⟨?_, ?_, ?_, ?_, ?_, ?_, ?_⟩
  · simp [handleRetryCurrentPose, hpose]
  · simp [handleRetryCurrentPose, hpose]
  · simp [handleRetryCurrentPose, hpose]
  · simp [handleRetryCurrentPose, hpose]
  · simp only [handleRetryCurrentPose, hpose]
    intro p hp hid
    rcases List.mem_map.1 hp with ⟨q, hq, rfl⟩
    by_cases h : q.id = poseInfo.id
    · simp [h, hfind]
    · rw [if_neg h] at hid ⊢
      exact absurd hid h
  · simp only [handleRetryCurrentPose, hpose]
    intro p hp hid
    rcases List.mem_map.1 hp with ⟨q, hq, rfl⟩
    by_cases h : q.id = poseInfo.id
    · rw [if_pos h, hfind] at hid
      simp at hid
    · rw [if_neg h]
      exact hq
  · simp only [handleRetryCurrentPose, hpose]
    rw [retry_map_idem poseInfo hfind s.photos]

/-- Witness for claim C8 at a concrete state past the first confirmed pose. -/
theorem controller_retry_current_pose_witness :
    (handleRetryCurrentPose confirmedFrontState).1.capturePhase =
        CapturePhase.INITIALIZING_POSE ∧
    (handleRetryCurrentPose confirmedFrontState).1.currentPoseIndex =
        confirmedFrontState.currentPoseIndex ∧
    (handleRetryCurrentPose confirmedFrontState).1.guidanceIntervalActive = false ∧
    (handleRetryCurrentPose confirmedFrontState).1.isBackendProcessing = false ∧
    (∀ p ∈ (handleRetryCurrentPose confirmedFrontState).1.photos,
      p.id = POSE_TYPES.headI.id →
      p.dataUri = none ∧ p.isCorrect = none ∧ p.feedback = none) ∧
    (∀ p ∈ (handleRetryCurrentPose confirmedFrontState).1.photos,
      p.id ≠ POSE_TYPES.headI.id → p ∈ confirmedFrontState.photos) ∧
    (handleRetryCurrentPose (handleRetryCurrentPose confirmedFrontState).1).1 =
      (handleRetryCurrentPose confirmedFrontState).1 :=
  controller_retry_current_pose confirmedFrontState POSE_TYPES.headI
    (by set_option maxRecDepth 10000 in decide)

/-! ## Claim C9 — entry conditions for READY_TO_START -/

/-- The mount-time prerequisite pipeline: `setupCameraAndTF` from `IDLE`, then
the model-loading effect. -/
def initPipeline (profile : Option UserProfile) (camOk modelOk : Bool) : ControllerState :=
  (loadModelEffect (setupCameraAndTF (initialState profile) camOk).1 modelOk).1

/-- Claim C9: starting from mount, the controller ends in `READY_TO_START`
exactly when the profile reports height, weight and age (all truthy), the
camera is granted and the advisory estimator loads; in that case the detector
is loaded and the permission recorded.  With any required field missing it
ends in `PROFILE_INCOMPLETE` instead, where the start-capture handler is a
no-op, so capture cannot start. -/
theorem controller_ready_requires_prereqs
    (profile : Option UserProfile) (camOk modelOk : Bool) :
    ((initPipeline profile camOk modelOk).capturePhase = CapturePhase.READY_TO_START ↔
      (profileComplete profile = true ∧ camOk = true ∧ modelOk = true)) ∧
    ((initPipeline profile camOk modelOk).capturePhase = CapturePhase.READY_TO_START →
      (initPipeline profile camOk modelOk).clientDetector = true ∧
      (initPipeline profile camOk modelOk).hasCameraPermission = some true) ∧
    (profileComplete profile = false →
      (initPipeline profile camOk modelOk).capturePhase = CapturePhase.PROFILE_INCOMPLETE ∧
      handleStartCapture (initPipeline profile camOk modelOk) =
        ((initPipeline profile camOk modelOk), [])) := by
  cases hp : profileComplete profile <;> cases camOk <;> cases modelOk <;>
    simp [initPipeline, setupCameraAndTF, loadModelEffect, initialState,
      handleStartCapture, hp]

/-- A profile missing the required age field. -/
def incompleteProfile : UserProfile :=
  { height := some 170, weight := some 70, age := none }

/-- Witness for claim C9: the incomplete-profile route at concrete inputs. -/
theorem controller_ready_requires_prereqs_witness :
    (initPipeline (some incompleteProfile) true true).capturePhase =
        CapturePhase.PROFILE_INCOMPLETE ∧
    handleStartCapture (initPipeline (some incompleteProfile) true true) =
      ((initPipeline (some incompleteProfile) true true), []) :=
  (controller_ready_requires_prereqs (some incompleteProfile) true true).2.2 (by decide)

/-! ## Claim C7 — the correct-pose capture pipeline -/

/-- The full event chain run for a correct pose: resolution of the analysis
call, the 500 ms capture dwell, the 300 ms flash write, and the confirmation
dwell, with `poseInfo`, `frame` and `capturedIndex` the closure values of the
originating `runAiGuidance` call. -/
def correctPosePipeline (s : ControllerState) (poseInfo : PoseTypeSpec)
    (frame : String) (result : AIPoseGuidanceOutput) (capturedIndex : Nat) :
    ControllerState :=
  (confirmDwellElapsed
    ((flashDwellElapsed
        (captureDwellElapsed (resolveAnalysisSuccess s poseInfo result).1)
        poseInfo frame).1)
    capturedIndex).1

/-- What claim C7 asserts of the correct-pose pipeline started at `s` for pose
index `idx`. -/
def correctCaptureSpec (s : ControllerState) (poseInfo : PoseTypeSpec)
    (frame : String) (result : AIPoseGuidanceOutput) (idx : Nat) : Prop :=
  (resolveAnalysisSuccess s poseInfo result).1.poseCorrectness = PoseCorrectness.CORRECT ∧
  (resolveAnalysisSuccess s poseInfo result).1.capturePhase = CapturePhase.CAPTURING_PHOTO ∧
  (captureDwellElapsed (resolveAnalysisSuccess s poseInfo result).1).capturePhase =
    CapturePhase.PHOTO_FLASH ∧
  (flashDwellElapsed (captureDwellElapsed (resolveAnalysisSuccess s poseInfo result).1)
      poseInfo frame).1.capturePhase = CapturePhase.POSE_CONFIRMED ∧
  (∃ p, (flashDwellElapsed (captureDwellElapsed (resolveAnalysisSuccess s poseInfo result).1)
      poseInfo frame).1.photos[idx]? = some p ∧
    p.id = poseInfo.id ∧ p.dataUri = some frame ∧ p.isCorrect = some true ∧
    p.feedback = some "Pose captured successfully.") ∧
  (idx < POSE_TYPES.length - 1 →
    (correctPosePipeline s poseInfo frame result idx).currentPoseIndex = idx + 1 ∧
    (correctPosePipeline s poseInfo frame result idx).capturePhase =
      CapturePhase.INITIALIZING_POSE) ∧
  (idx = POSE_TYPES.length - 1 →
    (correctPosePipeline s poseInfo frame result idx).capturePhase =
      CapturePhase.ALL_POSES_CAPTURED ∧
    (correctPosePipeline s poseInfo frame result idx).guidanceIntervalActive = false) ∧
  ((correctPosePipeline s poseInfo frame result idx).capturePhase =
      CapturePhase.ALL_POSES_CAPTURED ↔
    ∀ p ∈ (correctPosePipeline s poseInfo frame result idx).photos,
      p.isCorrect = some true) ∧
  (correctPosePipeline s poseInfo frame result idx).currentPoseIndex ≤
    POSE_TYPES.length - 1

/-- Claim C7: from a session state whose records are aligned with the catalog
and correct exactly below the current index, an analysis success with
`isCorrectPose = true` drives: correctness flag `CORRECT` and phase
`CAPTURING_PHOTO`, then `PHOTO_FLASH`, then `POSE_CONFIRMED` with the active
record written as `{imageData: frame, isCorrect: true, feedback: fixed
confirmation text}`; the confirmation dwell then advances the index by exactly
one when poses remain, and otherwise ends in `ALL_POSES_CAPTURED` with the
sampling interval cleared; the final phase is `ALL_POSES_CAPTURED` exactly
when every record is correct, and the index never passes the last pose. -/
theorem controller_correct_pose_capture_pipeline
    (s : ControllerState) (idx : Nat) (poseInfo : PoseTypeSpec)
    (a0 a1 a2 a3 : PosePhoto) (frame : String) (result : AIPoseGuidanceOutput)
    (hphotos : s.photos = [a0, a1, a2, a3])
    (hid0 : a0.id = "front_t_pose") (hid1 : a1.id = "side_left_a_pose")
    (hid2 : a2.id = "side_right_a_pose") (hid3 : a3.id = "back_t_pose")
    (hidx : s.currentPoseIndex = idx) (hlt : idx < 4)
    (hpose : POSE_TYPES[idx]? = some poseInfo)
    (hc0 : a0.isCorrect = some true ↔ 0 < idx)
    (hc1 : a1.isCorrect = some true ↔ 1 < idx)
    (hc2 : a2.isCorrect = some true ↔ 2 < idx)
    (hc3 : a3.isCorrect = some true ↔ 3 < idx)
    (hcorrect : result.isCorrectPose = true) :
    correctCaptureSpec s poseInfo frame result idx := by
  interval_cases idx <;>
  · simp only [POSE_TYPES, List.getElem?_cons_zero, List.getElem?_cons_succ,
      Option.some.injEq] at hpose
    subst hpose
    unfold correctCaptureSpec correctPosePipeline
    simp [resolveAnalysisSuccess, captureDwellElapsed, flashDwellElapsed,
      confirmDwellElapsed, POSE_TYPES, hphotos, hidx, hcorrect,
      hid0, hid1, hid2, hid3, hc0, hc1, hc2, hc3]

/-- A session state at the last pose with the first three records confirmed. -/
def lastPoseState : ControllerState :=
  { initialState none with
      currentPoseIndex := 3
      capturePhase := CapturePhase.ANALYZING
      photos :=
        [ { id := "front_t_pose", name := "T-Pose (Front View)"
            dataUri := some "data:image/webp;base64,AAAA", isCorrect := some true
            feedback := some "Pose captured successfully." },
          { id := "side_left_a_pose", name := "A-Pose (Left Side View)"
            dataUri := some "data:image/webp;base64,AAAA", isCorrect := some true
            feedback := some "Pose captured successfully." },
          { id := "side_right_a_pose", name := "A-Pose (Right Side View)"
            dataUri := some "data:image/webp;base64,AAAA", isCorrect := some true
            feedback := some "Pose captured successfully." },
          { id := "back_t_pose", name := "T-Pose (Back View)"
            dataUri := none, isCorrect := none, feedback := none } ] }

/-- A concrete correct-pose analysis result. -/
def correctResult : AIPoseGuidanceOutput :=
  { feedback := "Pose is correct.", isCorrectPose := true, detectedLandmarks := some [] }

/-- Witness for claim C7: capturing the last pose from `lastPoseState`. -/
theorem controller_correct_pose_capture_pipeline_witness :
    correctCaptureSpec lastPoseState POSE_TYPES[3]! "data:image/webp;base64,BBBB"
      correctResult 3 :=
  controller_correct_pose_capture_pipeline lastPoseState 3 POSE_TYPES[3]!
    _ _ _ _ "data:image/webp;base64,BBBB" correctResult rfl rfl rfl rfl rfl rfl
    (by decide) rfl (by decide) (by decide) (by decide) (by decide) rfl

end BodyWise
